import Mathlib

/-!
# uubu: sequencing and failure isolation of the update orchestrator

A shallow embedding of `main.go`.  Go strings that the program inspects
(command output, the snapshot comment, the operator's answer, catalogue
values) are lists of Unicode characters; fixed identifiers (message keys,
command words) are Lean strings.  Every effect of the program is recorded as
an `Event`, and everything the program reads from its surroundings comes from
a `World`.
-/

namespace Uubu

/-- Text handled by the program, as a sequence of runes. -/
abbrev Str := List Char

/-! ## The string functions of the Go library used by the program -/

/-- Go `unicode.IsSpace`: the runes with the White_Space property. -/
def isSpace (c : Char) : Bool :=
  let n := c.toNat
  (9 ≤ n && n ≤ 13) || n == 0x20 || n == 0x85 || n == 0xA0 || n == 0x1680 ||
  (0x2000 ≤ n && n ≤ 0x200a) || n == 0x2028 || n == 0x2029 || n == 0x202f ||
  n == 0x205f || n == 0x3000

/-- Go `strings.TrimSpace`: leading and trailing white space removed. -/
def trimSpace (s : Str) : Str :=
  ((s.dropWhile isSpace).reverse.dropWhile isSpace).reverse

/-- Go `strings.Split(s, sep)` for a separator of one rune. -/
def split (sep : Char) : Str → List Str
  | [] => [[]]
  | c :: cs =>
    if c = sep then [] :: split sep cs
    else
      match split sep cs with
      | [] => [[c]]
      | l :: ls => (c :: l) :: ls

/-- Go `strings.Contains(s, sub)`. -/
def contains : Str → Str → Bool
  | [], sub => sub.isEmpty
  | c :: cs, sub => sub.isPrefixOf (c :: cs) || contains cs sub

/-- Go `strings.ContainsAny(s, chars)`. -/
def containsAny (s chars : Str) : Bool :=
  s.any (fun c => chars.elem c)

/-- Go `strings.ToLower`, rune by rune through `unicode.ToLower`, which is
taken as the parameter `lower`. -/
def toLower (lower : Char → Char) (s : Str) : Str :=
  s.map lower

/-- Go `strings.ReplaceAll(s, old, new)` where `old` is the two runes
backslash, `e` and `new` is the one rune `r`: scanning from the left, every
non-overlapping occurrence is replaced. -/
def replaceEscape (e r : Char) : Str → Str
  | [] => []
  | [c] => [c]
  | a :: b :: rest =>
    if a = '\\' ∧ b = e then r :: replaceEscape e r rest
    else a :: replaceEscape e r (b :: rest)

/-! ## The parser of `apt list --upgradable` inside `updateSystem` -/

/-- The first banner text the parser leaves out. -/
def bannerFr : Str := "En train de lister".toList

/-- The second banner text the parser leaves out. -/
def bannerEn : Str := "Listing".toList

/-- The loop `for i, line := range lines` of `updateSystem` (lines 210-216):
`i` is the index of the next line, `acc` is `upgradableLines` so far. -/
def parseLoop : Nat → List Str → List Str → List Str
  | _, acc, [] => acc
  | i, acc, line :: rest =>
    let line := trimSpace line
    if i > 0 ∧ line ≠ [] ∧ contains line bannerFr = false ∧ contains line bannerEn = false then
      parseLoop (i + 1) (acc ++ [line]) rest
    else
      parseLoop (i + 1) acc rest

/-- The lines the parser works on: `strings.Split(strings.TrimSpace(output), "\n")`. -/
def outputLines (output : Str) : List Str :=
  split '\n' (trimSpace output)

/-- Lines 207-216 of `updateSystem`: the value of `upgradableLines`. -/
def parseUpgradable (output : Str) : List Str :=
  parseLoop 0 [] (outputLines output)

/-! ## Effects and surroundings -/

/-- The steps of the orchestrator. -/
inductive Step where
  | privilegeCheck
  | networkCheck
  | snapshot
  | packageUpdate
  | snap
  | flatpak
  | rebootCheck
  deriving DecidableEq, Repr

/-- What the program does to the outside, in the order it does it.
`step s`: the function of step `s` is entered.  `exec argv`: an external
program is started (`runCommand` or `exec.Command(...).Run()`).
`msg key`: `getMessage(key, ...)` is printed (or handed to `log.Fatal`), the
colour and the arguments left out.  `out text`: a line printed as is.
`log text`: an error handed to `log.Fatal`.  `dial`: the TCP probe.
`readLine`: one `ReadString` on standard input. -/
inductive Event where
  | step (s : Step)
  | exec (argv : List String)
  | msg (key : String)
  | out (text : Str)
  | log (text : String)
  | dial
  | readLine
  deriving DecidableEq, Repr

/-- What the program reads from its surroundings.  The result of an external
command (combined output, error) may depend on the commands started before
it in the run. -/
structure World where
  /-- The global `messages` after the language was loaded. -/
  messages : String → Option Str
  /-- Whether one of the `loadLanguage` calls of `main` succeeded. -/
  langLoaded : Bool
  /-- Go `fmt.Sprintf`. -/
  sprintf : Str → List Str → Str
  /-- Go `unicode.ToLower`. -/
  lower : Char → Char
  /-- The result of `user.Current()`: an error or the `Uid`. -/
  currentUser : Except String String
  /-- The error of `net.DialTimeout("tcp", "google.com:80", 3s)`, if any. -/
  dialError : Option String
  /-- Whether `exec.LookPath` finds the name. -/
  lookPath : String → Bool
  /-- The result of running `argv` after the commands `prev`. -/
  run : (prev : List (List String)) → (argv : List String) → Str × Option String
  /-- The clock read at line 160, in the layout `2006-01-02 15:04`. -/
  snapshotStamp : Str
  /-- The clock read at line 163, in the layout `2006-01-02 15:04`. -/
  fallbackStamp : Str
  /-- Whether `os.Stat("/var/run/reboot-required")` fails with "not exist". -/
  markerMissing : Bool
  /-- The content of `/var/run/reboot-required.pkgs` when it can be read. -/
  rebootPkgs : Option Str
  /-- What standard input holds. -/
  stdin : Str

/-- The external commands started in a trace, in order. -/
def execs : List Event → List (List String)
  | [] => []
  | Event.exec argv :: t => argv :: execs t
  | _ :: t => execs t

/-- The steps entered in a trace, in order. -/
def steps : List Event → List Step
  | [] => []
  | Event.step s :: t => s :: steps t
  | _ :: t => steps t

/-- Source `getMessage(key, args...)`. -/
def getMessage (w : World) (key : String) (args : List Str) : Str :=
  match w.messages key with
  | some msg =>
    let msg := replaceEscape 'n' '\n' msg
    let msg := replaceEscape 't' '\t' msg
    if args.length > 0 then w.sprintf msg args else msg
  | none => "[MISSING: ".toList ++ key.toList ++ "]".toList

/-- Source `checkRoot`: the error and the events. -/
def checkRoot (w : World) : Option String × List Event :=
  match w.currentUser with
  | .error err =>
    (some ("impossible de déterminer l'utilisateur actuel: " ++ err), [.step .privilegeCheck])
  | .ok uid =>
    if uid = "0" then
      (some "exécution en tant que root interdite",
        [.step .privilegeCheck, .msg "no_root", .msg "use_sudo"])
    else (none, [.step .privilegeCheck])

/-- Source `checkInternet`. -/
def checkInternet (w : World) : Option String × List Event :=
  match w.dialError with
  | some err =>
    (some err, [.step .networkCheck, .msg "checking_internet", .dial, .msg "internet_error"])
  | none =>
    (none, [.step .networkCheck, .msg "checking_internet", .dial, .msg "internet_ok"])

/-- The characters of line 162. -/
def denylist : Str := ";|&`$()\x7b\x7d[]<>".toList

/-- The fixed fallback of line 163. -/
def fallbackComment (w : World) : Str :=
  "System update snapshot - ".toList ++ w.fallbackStamp

/-- The candidate comment of line 160. -/
def candidateComment (w : World) : Str :=
  getMessage w "before_update" [w.snapshotStamp]

/-- Lines 160-164 of `createSnapshot`: the value of `comment` at line 165. -/
def snapshotComment (w : World) : Str :=
  let comment := candidateComment w
  if containsAny comment denylist then fallbackComment w else comment

/-- The command of line 165. -/
def timeshiftCmd (comment : Str) : List String :=
  ["sudo", "timeshift", "--create", "--comments", String.mk comment, "--scripted"]

/-- Source `createSnapshot`, after the commands `prev`. -/
def createSnapshot (w : World) (prev : List (List String)) : Option String × List Event :=
  if w.lookPath "timeshift" = false then
    (none, [.step .snapshot, .msg "timeshift_missing"])
  else
    let cmd := timeshiftCmd (snapshotComment w)
    match (w.run prev cmd).2 with
    | some err =>
      (some err, [.step .snapshot, .msg "creating_snapshot", .exec cmd, .msg "snapshot_failed"])
    | none =>
      (none, [.step .snapshot, .msg "creating_snapshot", .exec cmd, .msg "snapshot_success"])

/-- The event of a warning printed when a command failed. -/
def warnIf (r : Str × Option String) (key : String) : List Event :=
  match r.2 with
  | some _ => [.msg key]
  | none => []

/-- The command of line 195. -/
def aptUpdate : List String := ["sudo", "apt", "update"]

/-- The command of line 201. -/
def aptList : List String := ["apt", "list", "--upgradable"]

/-- The command of lines 245 and 265. -/
def aptUpgrade : List String := ["sudo", "apt", "upgrade", "-y"]

/-- The command of line 259. -/
def aptDistUpgrade : List String := ["sudo", "apt", "dist-upgrade", "-y"]

/-- The command of line 272. -/
def aptAutoremove : List String := ["sudo", "apt", "autoremove", "-y"]

/-- The command of line 278. -/
def aptAutoclean : List String := ["sudo", "apt", "autoclean"]

/-- Lines 256-283 of `updateSystem`: the command chosen by the flag, then the
two cleanups; none of their errors is returned.  `prev` holds the commands
started so far, `t` the events so far. -/
def applyAndClean (w : World) (prev : List (List String)) (t : List Event)
    (distUpgrade : Bool) : Option String × List Event :=
  let second := if distUpgrade then aptDistUpgrade else aptUpgrade
  let t := t ++ [.msg (if distUpgrade then "dist_upgrade" else "upgrade"), .exec second]
    ++ warnIf (w.run prev second) "dist_error"
  let prev := prev ++ [second]
  let t := t ++ [.msg "removing_obsolete", .exec aptAutoremove]
    ++ warnIf (w.run prev aptAutoremove) "autoremove_error"
  let prev := prev ++ [aptAutoremove]
  let t := t ++ [.msg "cleaning_cache", .exec aptAutoclean]
    ++ warnIf (w.run prev aptAutoclean) "autoclean_error"
  (none, t ++ [.msg "update_finished"])

/-- Source `updateSystem(distUpgrade)`, after the commands `prev`. -/
def updateSystem (w : World) (prev : List (List String)) (distUpgrade : Bool) :
    Option String × List Event :=
  let t := [.step .packageUpdate, .msg "update_start", .msg "update_packages", .exec aptUpdate]
  match (w.run prev aptUpdate).2 with
  | some err => (some err, t ++ [.msg "update_error"])
  | none =>
    let prev := prev ++ [aptUpdate]
    let t := t ++ [.exec aptList]
    match w.run prev aptList with
    | (_, some err) => (some err, t ++ [.msg "check_packages"])
    | (output, none) =>
      let prev := prev ++ [aptList]
      let upgradableLines := parseUpgradable output
      let upgradableCount := upgradableLines.length
      if upgradableCount > 0 then
        let t := t ++ [.msg "packages_count", .msg "packages_list"]
          ++ upgradableLines.map Event.out ++ [.out []]
        let t := t ++ [.msg "installing_updates", .exec aptUpgrade]
        match (w.run prev aptUpgrade).2 with
        | some err => (some err, t ++ [.msg "install_error"])
        | none => applyAndClean w (prev ++ [aptUpgrade]) t distUpgrade
      else
        (none, t ++ [.msg "no_packages"])

/-- The command of line 294. -/
def snapRefresh : List String := ["sudo", "snap", "refresh"]

/-- The command of line 311. -/
def flatpakUpdate : List String := ["flatpak", "update", "-y"]

/-- The command of line 349. -/
def rebootCmd : List String := ["sudo", "reboot"]

/-- Source `updateSnap`, after the commands `prev`. -/
def updateSnap (w : World) (prev : List (List String)) : Option String × List Event :=
  if w.lookPath "snap" = false then
    (none, [.step .snap, .msg "snap_missing"])
  else
    match (w.run prev snapRefresh).2 with
    | some err => (some err, [.step .snap, .msg "updating_snap", .exec snapRefresh, .msg "snap_error"])
    | none => (none, [.step .snap, .msg "updating_snap", .exec snapRefresh, .msg "snap_updated"])

/-- Source `updateFlatpak`, after the commands `prev`. -/
def updateFlatpak (w : World) (prev : List (List String)) : Option String × List Event :=
  if w.lookPath "flatpak" = false then
    (none, [.step .flatpak, .msg "flatpak_missing"])
  else
    match (w.run prev flatpakUpdate).2 with
    | some err =>
      (some err, [.step .flatpak, .msg "updating_flatpak", .exec flatpakUpdate, .msg "flatpak_error"])
    | none =>
      (none, [.step .flatpak, .msg "updating_flatpak", .exec flatpakUpdate, .msg "flatpak_updated"])

/-- Go `bufio.Reader.ReadString(delim)` on a reader over `input`: the text up
to and including the first `delim`, or an error when there is none. -/
def readString (delim : Char) : Str → Option Str
  | [] => none
  | c :: cs =>
    if c = delim then some [c]
    else
      match readString delim cs with
      | some l => some (c :: l)
      | none => none

/-- Line 343 of `checkReboot`: the response, lowercased then trimmed. -/
def normalize (w : World) (response : Str) : Str :=
  trimSpace (toLower w.lower response)

/-- Line 345 of `checkReboot`: the accepted answers. -/
def yesAnswers (w : World) : List Str :=
  split ',' (getMessage w "yes_answers" [])

/-- Lines 346-354 of `checkReboot`: the loop over the accepted answers and
what follows it.  `t` holds the events so far. -/
def answerLoop (w : World) (prev : List (List String)) (t : List Event) (response : Str) :
    List Str → Option String × List Event
  | [] => (none, t ++ [.msg "reboot_later"])
  | yes :: rest =>
    if response = trimSpace yes then
      ((w.run prev rebootCmd).2, t ++ [.msg "rebooting", .exec rebootCmd])
    else answerLoop w prev t response rest

/-- Source `checkReboot`, after the commands `prev`. -/
def checkReboot (w : World) (prev : List (List String)) : Option String × List Event :=
  if w.markerMissing then
    (none, [.step .rebootCheck, .msg "no_reboot"])
  else
    let t := [.step .rebootCheck, .msg "reboot_required", .msg "reboot_message"]
    let t := t ++
      (match w.rebootPkgs with
       | some data => [.msg "affected_packages", .out data]
       | none => [])
    let t := t ++ [.msg "reboot_prompt", .readLine]
    match readString '\n' w.stdin with
    | none => (some "EOF", t)
    | some response => answerLoop w prev t (normalize w response) (yesAnswers w)

/-- The command-line flags after `flag.Parse()`. -/
structure Flags where
  help : Bool
  showVersion : Bool
  snapshot : Bool
  noSnap : Bool
  noFlatpak : Bool
  noReboot : Bool
  distUpgrade : Bool

/-- Source `Config`. -/
structure Config where
  CreateSnapshot : Bool
  UpdateSnap : Bool
  UpdateFlatpak : Bool
  CheckRebootNeeded : Bool

/-- Lines 412-459 of `main`: the defaults with the flags applied. -/
def configOf (f : Flags) : Config :=
  ⟨f.snapshot, if f.noSnap then false else true, if f.noFlatpak then false else true,
    if f.noReboot then false else true⟩

/-- How the process ends: its exit code and everything it did. -/
structure Outcome where
  exit : Nat
  trace : List Event

/-- Source `showHelp`, by message keys. -/
def showHelp : List Event :=
  [.msg "help_description", .msg "description", .msg "help_desc_long", .msg "help_usage",
   .msg "help_options", .msg "flag_help", .msg "flag_version", .msg "flag_snapshot",
   .msg "flag_no_snap", .msg "flag_no_flatpak", .msg "flag_no_reboot", .msg "flag_dist_upgrade",
   .msg "help_examples", .msg "help_example_1", .msg "help_example_2", .msg "help_example_4",
   .msg "help_author", .msg "help_license"]

/-- Source `showVersion`, by message keys; the lines built from the build
variables are left out. -/
def showVersion : List Event :=
  [.msg "license"]

/-- A failure of an optional step, reported as a warning by `main`. -/
def warnErr (err : Option String) (key : String) : List Event :=
  match err with
  | some _ => [.msg key]
  | none => []

/-- Lines 461-481 of `main` when both checks pass: the header, the two
checks and the snapshot if requested. -/
def preUpdateTrace (w : World) (f : Flags) : List Event :=
  let t := [.msg "app_title", .msg "start_time", .out []] ++ (checkRoot w).2 ++ (checkInternet w).2
  if (configOf f).CreateSnapshot then
    let r := createSnapshot w (execs t)
    t ++ r.2 ++ warnErr r.1 "error_snapshot" ++ [.out []]
  else t

/-- Lines 487-513 of `main`: what follows a successful `updateSystem`, whose
events end `t`. -/
def postUpdateTrace (w : World) (f : Flags) (t : List Event) : List Event :=
  let t := t ++ [.out []]
  let t :=
    if (configOf f).UpdateSnap then
      let r := updateSnap w (execs t)
      t ++ r.2 ++ warnErr r.1 "error_snap" ++ [.out []]
    else t
  let t :=
    if (configOf f).UpdateFlatpak then
      let r := updateFlatpak w (execs t)
      t ++ r.2 ++ warnErr r.1 "error_flatpak" ++ [.out []]
    else t
  let t :=
    if (configOf f).CheckRebootNeeded then
      let r := checkReboot w (execs t)
      t ++ r.2 ++ warnErr r.1 "error_reboot"
    else t
  t ++ [.msg "app_finished", .msg "end_time"]

/-- Source `main`, from the parsed flags on.  When no language could be
loaded (`log.Fatalf`, line 407) the process exits with code 1 at once. -/
def main (w : World) (f : Flags) : Outcome :=
  if w.langLoaded = false then
    ⟨1, [.log "Impossible de charger la langue par défaut"]⟩
  else if f.help then ⟨0, showHelp⟩
  else if f.showVersion then ⟨0, showVersion⟩
  else
    let t := [.msg "app_title", .msg "start_time", .out []]
    match checkRoot w with
    | (some err, tr) => ⟨1, t ++ tr ++ [.log err]⟩
    | (none, _) =>
      match checkInternet w with
      | (some err, ti) => ⟨1, t ++ (checkRoot w).2 ++ ti ++ [.log err]⟩
      | (none, _) =>
        let t := preUpdateTrace w f
        match updateSystem w (execs t) f.distUpgrade with
        | (some _, tu) => ⟨1, t ++ tu ++ [.msg "error_update"]⟩
        | (none, tu) => ⟨0, postUpdateTrace w f (t ++ tu)⟩

/-! ## Notions used to state the properties -/

/-- The lines the parser keeps among those after the first. -/
def keepLine (line : Str) : Bool :=
  decide (line ≠ []) && !contains line bannerFr && !contains line bannerEn

/-- The characters a timestamp in the layout `2006-01-02 15:04` is made of. -/
def stampChar (c : Char) : Bool :=
  c.isDigit || c == '-' || c == ':' || c == ' '

/-- The command started at lines 256-268. -/
def secondUpgrade (distUpgrade : Bool) : List String :=
  if distUpgrade then aptDistUpgrade else aptUpgrade

/-- The events of `checkReboot` up to the read of the answer, when the
marker is present. -/
def promptTrace (w : World) : List Event :=
  [.step .rebootCheck, .msg "reboot_required", .msg "reboot_message"] ++
    (match w.rebootPkgs with
     | some data => [.msg "affected_packages", .out data]
     | none => []) ++ [.msg "reboot_prompt", .readLine]

/-- What `main` records for an optional step: nothing when the step is not
requested; else the events of the step, the warning when the step returned an
error and, when `blank` is set, the empty line printed after it. -/
def optionalStep (enabled : Bool) (r : Option String × List Event) (errKey : String)
    (blank : Bool) : List Event :=
  if enabled then r.2 ++ warnErr r.1 errKey ++ (if blank then [.out []] else []) else []

/-- The commands started before `updateSystem` is called: those of the
snapshot step when it is requested. -/
def cmdsBeforeUpdate (w : World) (f : Flags) : List (List String) :=
  if (configOf f).CreateSnapshot then execs (createSnapshot w []).2 else []

/-- The commands started before the snap step: the former and those of
`updateSystem`. -/
def cmdsBeforeSnap (w : World) (f : Flags) : List (List String) :=
  cmdsBeforeUpdate w f ++ execs (updateSystem w (cmdsBeforeUpdate w f) f.distUpgrade).2

/-- The commands started before the flatpak step: the former and those of
`updateSnap` when it is requested. -/
def cmdsBeforeFlatpak (w : World) (f : Flags) : List (List String) :=
  cmdsBeforeSnap w f ++
    (if (configOf f).UpdateSnap then execs (updateSnap w (cmdsBeforeSnap w f)).2 else [])

/-- The commands started before the reboot check: the former and those of
`updateFlatpak` when it is requested. -/
def cmdsBeforeReboot (w : World) (f : Flags) : List (List String) :=
  cmdsBeforeFlatpak w f ++
    (if (configOf f).UpdateFlatpak then execs (updateFlatpak w (cmdsBeforeFlatpak w f)).2 else [])

/-! ## Sample surroundings used to evaluate the model -/

/-- A catalogue holding only the accepted answers. -/
def answersCatalog (answers : String) : String → Option Str :=
  fun key => if key = "yes_answers" then some answers.toList else none

/-- A catalogue holding only the snapshot comment template. -/
def commentCatalog (template : String) : String → Option Str :=
  fun key => if key = "before_update" then some template.toList else none

/-- A timestamp in the layout `2006-01-02 15:04`. -/
def sampleStamp : Str := "2024-05-17 09:30".toList

/-- Surroundings built from the parts that vary between the samples; ASCII
lowercasing, a formatter that appends its arguments, the snapshot tool, snap
and flatpak all installed. -/
def sampleWorld (messages : String → Option Str) (uid : String) (dialError : Option String)
    (run : List (List String) → List String → Str × Option String)
    (markerMissing : Bool) (stdin : String) : World :=
  ⟨messages, true, fun msg args => msg ++ args.flatten, Char.toLower, .ok uid, dialError,
    fun _ => true, run, sampleStamp, sampleStamp, markerMissing, none, stdin.toList⟩

/-- An `apt list --upgradable` output with a warning line first. -/
def listingOutput : Str :=
  "WARNING: apt does not have a stable CLI interface.\nListing... Done\nvim/noble 2.0 amd64\n".toList

/-- Every command succeeds; the list query reports `listing`. -/
def runAllOk (listing : Str) : List (List String) → List String → Str × Option String :=
  fun _ argv => if argv = aptList then (listing, none) else ([], none)

/-- Every command succeeds but `sudo apt upgrade -y`. -/
def runUpgradeFails (listing : Str) : List (List String) → List String → Str × Option String :=
  fun _ argv =>
    if argv = aptList then (listing, none)
    else if argv = aptUpgrade then ([], some "exit status 100")
    else ([], none)

/-- Every command succeeds but `sudo apt dist-upgrade -y`. -/
def runDistUpgradeFails (listing : Str) : List (List String) → List String → Str × Option String :=
  fun _ argv =>
    if argv = aptList then (listing, none)
    else if argv = aptDistUpgrade then ([], some "exit status 100")
    else ([], none)

/-- The command `failing` fails, every other command succeeds with no output. -/
def runFailing (failing : List String) : List (List String) → List String → Str × Option String :=
  fun _ argv => if argv = failing then ([], some "exit status 100") else ([], none)

/-- The apt commands succeed, the list query reports `listing`, and every
other command (snapshot, snap, flatpak, reboot) fails. -/
def runOnlyApt (listing : Str) : List (List String) → List String → Str × Option String :=
  fun _ argv =>
    if argv = aptList then (listing, none)
    else if argv ∈ [aptUpdate, aptUpgrade, aptDistUpgrade, aptAutoremove, aptAutoclean] then
      ([], none)
    else ([], some "exit status 1")

/-- Surroundings in which only the programs accepted by `present` are on the
search path and every command that is started fails. -/
def toolsWorld (present : String → Bool) (messages : String → Option Str) : World :=
  ⟨messages, true, fun msg args => msg ++ args.flatten, Char.toLower, .ok "1000", none,
    present, fun _ _ => ([], some "exit status 1"), sampleStamp, sampleStamp, true, none, []⟩

/-! ## Lemmas on the library functions -/

theorem execs_append (a b : List Event) : execs (a ++ b) = execs a ++ execs b := by
  induction a with
  | nil => rfl
  | cons e t ih => cases e <;> simp [execs, ih]

theorem steps_append (a b : List Event) : steps (a ++ b) = steps a ++ steps b := by
  induction a with
  | nil => rfl
  | cons e t ih => cases e <;> simp [steps, ih]

theorem execs_map_out (l : List Str) : execs (l.map Event.out) = [] := by
  induction l with
  | nil => rfl
  | cons e t ih => simp [execs, ih]

theorem steps_map_out (l : List Str) : steps (l.map Event.out) = [] := by
  induction l with
  | nil => rfl
  | cons e t ih => simp [steps, ih]

theorem parseLoop_succ (i : Nat) (acc lines : List Str) :
    parseLoop (i + 1) acc lines = acc ++ (lines.map trimSpace).filter keepLine := by
  induction lines generalizing i acc with
  | nil => simp [parseLoop]
  | cons l ls ih =>
    rw [parseLoop]
    split
    · rename_i hc
      obtain ⟨-, a, b, c⟩ := hc
      have hk : keepLine (trimSpace l) = true := by simp [keepLine, a, b, c]
      simp [ih, hk]
    · rename_i hc
      have hk : keepLine (trimSpace l) = false := by
        cases hk : keepLine (trimSpace l) with
        | false => rfl
        | true =>
          exfalso
          apply hc
          simp only [keepLine, Bool.and_eq_true, decide_eq_true_eq, Bool.not_eq_true'] at hk
          exact ⟨Nat.succ_pos i, hk.1.1, hk.1.2, hk.2⟩
      simp [ih, hk]

theorem parseUpgradable_eq (output : Str) :
    parseUpgradable output = ((outputLines output).tail.map trimSpace).filter keepLine := by
  unfold parseUpgradable
  cases outputLines output with
  | nil => rfl
  | cons l ls =>
    rw [parseLoop]
    simp [parseLoop_succ]

/-! ## C1: the parser of the upgradable list -/

/-- C1, as stated, fails: an output of three lines whose first line is a
header and whose other lines are non-blank yields one entry, not two, since
the line `Listing... Done` is left out although it is not the first. -/
theorem parser_drops_listing_line :
    (outputLines listingOutput).length = 3 ∧
    (∀ l ∈ (outputLines listingOutput).tail, trimSpace l ≠ []) ∧
    parseUpgradable listingOutput = ["vim/noble 2.0 amd64".toList] ∧
    (parseUpgradable listingOutput).length ≠ 3 - 1 ∧
    parseUpgradable listingOutput ≠ (outputLines listingOutput).tail := by
  decide

/-- C1, amended: for every output the parser yields, in order, the trimmed
lines after the first of the trimmed output that are neither blank nor hold
`En train de lister` or `Listing`; when no line after the first is blank or
holds one of these texts, that is all of them, N - 1 entries for N lines. -/
theorem parser_keeps_descriptor_lines (output : Str) :
    parseUpgradable output
      = ((outputLines output).tail.map trimSpace).filter
          (fun l => decide (l ≠ []) && !contains l bannerFr && !contains l bannerEn) ∧
    ((∀ l ∈ (outputLines output).tail, trimSpace l ≠ [] ∧
        contains (trimSpace l) bannerFr = false ∧ contains (trimSpace l) bannerEn = false) →
      parseUpgradable output = (outputLines output).tail.map trimSpace ∧
      (parseUpgradable output).length = (outputLines output).length - 1) := by
  refine ⟨parseUpgradable_eq output, fun h => ?_⟩
  have hall : ((outputLines output).tail.map trimSpace).filter keepLine
      = (outputLines output).tail.map trimSpace := by
    rw [List.filter_eq_self]
    intro l hl
    obtain ⟨l0, hl0, rfl⟩ := List.mem_map.mp hl
    obtain ⟨a, b, c⟩ := h l0 hl0
    simp [keepLine, a, b, c]
  rw [parseUpgradable_eq, hall]
  simp

/-- C1, amended, on an output shaped like the one of the test: the header
and two package lines give the two package lines, trimmed. -/
theorem parser_keeps_descriptor_lines_witness :
    (∀ l ∈ (outputLines "En train de lister\nfirefox 130 \nlibreoffice 24\n".toList).tail,
        trimSpace l ≠ [] ∧ contains (trimSpace l) bannerFr = false ∧
        contains (trimSpace l) bannerEn = false) ∧
    parseUpgradable "En train de lister\nfirefox 130 \nlibreoffice 24\n".toList
      = ["firefox 130".toList, "libreoffice 24".toList] ∧
    (parseUpgradable "En train de lister\nfirefox 130 \nlibreoffice 24\n".toList).length = 2 :=
  ⟨by decide,
   ((parser_keeps_descriptor_lines _).2 (by decide)).1.trans (by decide),
   ((parser_keeps_descriptor_lines _).2 (by decide)).2.trans (by decide)⟩

/-! ## C2: the comment handed to the snapshot tool -/

theorem containsAny_append (a b chars : Str) :
    containsAny (a ++ b) chars = (containsAny a chars || containsAny b chars) := by
  simp [containsAny]

theorem stamp_clean (s : Str) (h : ∀ c ∈ s, stampChar c = true) :
    containsAny s denylist = false := by
  induction s with
  | nil => rfl
  | cons c cs ih =>
    have hc := h c (List.mem_cons_self c cs)
    have hcs := ih (fun x hx => h x (List.mem_cons_of_mem c hx))
    have hd : denylist.elem c = false := by
      cases hel : denylist.elem c with
      | false => rfl
      | true =>
        exfalso
        have hm : c ∈ denylist := List.elem_iff.mp hel
        revert hc
        simp only [denylist, String.toList] at hm
        simp only [List.mem_cons, List.mem_singleton, List.not_mem_nil, or_false] at hm
        rcases hm with rfl | rfl | rfl | rfl | rfl | rfl | rfl | rfl | rfl | rfl | rfl | rfl | rfl | rfl <;>
          decide
    simp only [containsAny, List.any_cons, hd, Bool.false_or] at hcs ⊢
    exact hcs

theorem fallback_clean (w : World) (h : ∀ c ∈ w.fallbackStamp, stampChar c = true) :
    containsAny (fallbackComment w) denylist = false := by
  unfold fallbackComment
  rw [containsAny_append, stamp_clean _ h]
  decide

/-- C2: when the candidate comment holds a character of the denylist, the
comment of line 165 is the fixed fallback `System update snapshot - ` followed
by the timestamp, and (the timestamp being made of digits, `-`, `:` and
space) differs from the candidate; when it holds none, the comment is the
candidate unchanged; and that comment is the one in the single command
`createSnapshot` starts when the tool is installed. -/
theorem snapshot_comment_sanitized (w : World) (prev : List (List String)) :
    (containsAny (candidateComment w) denylist = true →
      snapshotComment w = "System update snapshot - ".toList ++ w.fallbackStamp) ∧
    (containsAny (candidateComment w) denylist = true →
      (∀ c ∈ w.fallbackStamp, stampChar c = true) →
      snapshotComment w ≠ candidateComment w) ∧
    (containsAny (candidateComment w) denylist = false →
      snapshotComment w = candidateComment w) ∧
    (w.lookPath "timeshift" = true →
      execs (createSnapshot w prev).2
        = [["sudo", "timeshift", "--create", "--comments", String.mk (snapshotComment w),
            "--scripted"]]) := by
  refine ⟨?_, ?_, ?_, ?_⟩
  · intro h
    simp [snapshotComment, h, fallbackComment]
  · intro h hs heq
    have h1 : snapshotComment w = fallbackComment w := by simp [snapshotComment, h]
    have h2 := fallback_clean w hs
    rw [← h1, heq, h] at h2
    exact Bool.noConfusion h2
  · intro h
    simp [snapshotComment, h]
  · intro h
    unfold createSnapshot
    simp only [h]
    cases (w.run prev (timeshiftCmd (snapshotComment w))).2 <;> simp [execs, timeshiftCmd]

/-- C2 on two catalogues: a template holding `;` gives the fallback, a
template free of denylisted characters gives the candidate itself, and the
command started carries that comment. -/
theorem snapshot_comment_sanitized_witness :
    (containsAny (candidateComment
        (sampleWorld (commentCatalog "Before update; ") "1000" none (runAllOk []) true ""))
        denylist = true ∧
      snapshotComment
        (sampleWorld (commentCatalog "Before update; ") "1000" none (runAllOk []) true "")
        = "System update snapshot - 2024-05-17 09:30".toList ∧
      snapshotComment
        (sampleWorld (commentCatalog "Before update; ") "1000" none (runAllOk []) true "")
        ≠ "Before update; 2024-05-17 09:30".toList) ∧
    (containsAny (candidateComment
        (sampleWorld (commentCatalog "Before update ") "1000" none (runAllOk []) true ""))
        denylist = false ∧
      snapshotComment
        (sampleWorld (commentCatalog "Before update ") "1000" none (runAllOk []) true "")
        = "Before update 2024-05-17 09:30".toList ∧
      execs (createSnapshot
        (sampleWorld (commentCatalog "Before update ") "1000" none (runAllOk []) true "") []).2
        = [["sudo", "timeshift", "--create", "--comments", "Before update 2024-05-17 09:30",
            "--scripted"]]) :=
  ⟨⟨by decide,
    ((snapshot_comment_sanitized _ []).1 (by decide)).trans (by decide),
    (snapshot_comment_sanitized _ []).2.1 (by decide) (by decide)⟩,
   ⟨by decide,
    ((snapshot_comment_sanitized _ []).2.2.1 (by decide)).trans (by decide),
    ((snapshot_comment_sanitized _ []).2.2.2 (by decide)).trans (by decide)⟩⟩

/-! ## C3 to C6: the package update step -/

theorem execs_warnIf (r : Str × Option String) (key : String) : execs (warnIf r key) = [] := by
  unfold warnIf
  cases r.2 <;> rfl

theorem applyAndClean_spec (w : World) (prev : List (List String)) (t : List Event) (d : Bool) :
    (applyAndClean w prev t d).1 = none ∧
    execs (applyAndClean w prev t d).2
      = execs t ++ [secondUpgrade d, aptAutoremove, aptAutoclean] := by
  constructor
  · rfl
  · simp [applyAndClean, execs_append, execs_warnIf, execs, secondUpgrade]

theorem updateSystem_refresh_fails (w : World) (prev : List (List String)) (d : Bool)
    (err : String) (h1 : (w.run prev aptUpdate).2 = some err) :
    (updateSystem w prev d).1 = some err ∧ execs (updateSystem w prev d).2 = [aptUpdate] := by
  unfold updateSystem
  simp [h1, execs]

theorem updateSystem_list_fails (w : World) (prev : List (List String)) (d : Bool)
    (err : String) (h1 : (w.run prev aptUpdate).2 = none)
    (h2 : (w.run (prev ++ [aptUpdate]) aptList).2 = some err) :
    (updateSystem w prev d).1 = some err ∧
    execs (updateSystem w prev d).2 = [aptUpdate, aptList] := by
  unfold updateSystem
  rcases hr : w.run (prev ++ [aptUpdate]) aptList with ⟨o, e⟩
  rw [hr] at h2
  simp only at h2
  subst h2
  simp [h1, hr, execs]

theorem updateSystem_none (w : World) (prev : List (List String)) (d : Bool)
    (h1 : (w.run prev aptUpdate).2 = none)
    (h2 : (w.run (prev ++ [aptUpdate]) aptList).2 = none)
    (h3 : (parseUpgradable (w.run (prev ++ [aptUpdate]) aptList).1).length = 0) :
    updateSystem w prev d
      = (none, [.step .packageUpdate, .msg "update_start", .msg "update_packages",
          .exec aptUpdate, .exec aptList, .msg "no_packages"]) := by
  unfold updateSystem
  rcases hr : w.run (prev ++ [aptUpdate]) aptList with ⟨o, e⟩
  rw [hr] at h2 h3
  simp only at h2 h3
  subst h2
  simp [h1, hr, h3]

theorem updateSystem_some (w : World) (prev : List (List String)) (d : Bool)
    (h1 : (w.run prev aptUpdate).2 = none)
    (h2 : (w.run (prev ++ [aptUpdate]) aptList).2 = none)
    (h3 : 0 < (parseUpgradable (w.run (prev ++ [aptUpdate]) aptList).1).length) :
    (updateSystem w prev d).1 = (w.run (prev ++ [aptUpdate, aptList]) aptUpgrade).2 ∧
    execs (updateSystem w prev d).2
      = [aptUpdate, aptList, aptUpgrade] ++
        (match (w.run (prev ++ [aptUpdate, aptList]) aptUpgrade).2 with
         | some _ => []
         | none => [secondUpgrade d, aptAutoremove, aptAutoclean]) := by
  unfold updateSystem
  rcases hr : w.run (prev ++ [aptUpdate]) aptList with ⟨o, e⟩
  rw [hr] at h2 h3
  simp only at h2 h3
  subst h2
  simp only [h1, hr, gt_iff_lt, h3, if_true, List.append_assoc, List.cons_append, List.nil_append]
  cases hu : (w.run (prev ++ [aptUpdate, aptList]) aptUpgrade).2 with
  | some e => simp [execs, execs_append, execs_map_out]
  | none =>
    simp only []
    refine ⟨(applyAndClean_spec _ _ _ _).1, ?_⟩
    rw [(applyAndClean_spec _ _ _ _).2]
    simp [execs, execs_append, execs_map_out]

/-- C3, as stated, fails: with the flag set and one package upgradable, both
`sudo apt upgrade -y` and `sudo apt dist-upgrade -y` are started in the same
pass. -/
theorem dist_upgrade_pass_runs_both :
    0 < (parseUpgradable listingOutput).length ∧
    execs (updateSystem
        (sampleWorld (answersCatalog "y") "1000" none (runAllOk listingOutput) true "") [] true).2
      = [aptUpdate, aptList, aptUpgrade, aptDistUpgrade, aptAutoremove, aptAutoclean] ∧
    aptUpgrade ∈ execs (updateSystem
        (sampleWorld (answersCatalog "y") "1000" none (runAllOk listingOutput) true "") [] true).2 ∧
    aptDistUpgrade ∈ execs (updateSystem
        (sampleWorld (answersCatalog "y") "1000" none (runAllOk listingOutput) true "") [] true).2 := by
  decide

/-- C3, amended: when the refresh and the list query succeed and at least
one package is upgradable, `sudo apt upgrade -y` is started whatever the
flag; `sudo apt dist-upgrade -y` is started only if the flag is set; and with
the flag set and that upgrade successful both run in the same pass, the
upgrade first. -/
theorem upgrade_always_dist_upgrade_by_flag (w : World) (prev : List (List String)) (d : Bool)
    (h1 : (w.run prev aptUpdate).2 = none)
    (h2 : (w.run (prev ++ [aptUpdate]) aptList).2 = none)
    (h3 : 0 < (parseUpgradable (w.run (prev ++ [aptUpdate]) aptList).1).length) :
    aptUpgrade ∈ execs (updateSystem w prev d).2 ∧
    (aptDistUpgrade ∈ execs (updateSystem w prev d).2 → d = true) ∧
    (d = true → (w.run (prev ++ [aptUpdate, aptList]) aptUpgrade).2 = none →
      execs (updateSystem w prev d).2
        = [aptUpdate, aptList, aptUpgrade, aptDistUpgrade, aptAutoremove, aptAutoclean]) := by
  have hs := (updateSystem_some w prev d h1 h2 h3).2
  refine ⟨?_, ?_, ?_⟩
  · rw [hs]
    simp
  · rw [hs]
    cases d with
    | true => intro _; rfl
    | false =>
      cases (w.run (prev ++ [aptUpdate, aptList]) aptUpgrade).2 <;>
        simp [secondUpgrade] <;> decide
  · intro hd hu
    rw [hs, hu, hd]
    rfl

/-- C3, amended, evaluated with the flag unset and with the flag set. -/
theorem upgrade_always_dist_upgrade_by_flag_witness :
    (aptUpgrade ∈ execs (updateSystem
        (sampleWorld (answersCatalog "y") "1000" none (runAllOk listingOutput) true "") [] false).2 ∧
      aptDistUpgrade ∉ execs (updateSystem
        (sampleWorld (answersCatalog "y") "1000" none (runAllOk listingOutput) true "") [] false).2) ∧
    aptDistUpgrade ∈ execs (updateSystem
        (sampleWorld (answersCatalog "y") "1000" none (runAllOk listingOutput) true "") [] true).2 :=
  ⟨⟨(upgrade_always_dist_upgrade_by_flag _ [] false (by decide) (by decide) (by decide)).1,
    fun h => Bool.noConfusion
      ((upgrade_always_dist_upgrade_by_flag _ [] false (by decide) (by decide) (by decide)).2.1 h)⟩,
   by
    rw [(upgrade_always_dist_upgrade_by_flag _ [] true (by decide) (by decide) (by decide)).2.2
      rfl (by decide)]
    decide⟩

/-- C4, as stated, fails: when `sudo apt upgrade -y` fails, `updateSystem`
returns the error and starts neither the removal of obsolete packages nor
the cache cleanup. -/
theorem upgrade_failure_is_returned :
    0 < (parseUpgradable listingOutput).length ∧
    (updateSystem
        (sampleWorld (answersCatalog "y") "1000" none (runUpgradeFails listingOutput) true "")
        [] false).1 = some "exit status 100" ∧
    execs (updateSystem
        (sampleWorld (answersCatalog "y") "1000" none (runUpgradeFails listingOutput) true "")
        [] false).2 = [aptUpdate, aptList, aptUpgrade] ∧
    aptAutoremove ∉ execs (updateSystem
        (sampleWorld (answersCatalog "y") "1000" none (runUpgradeFails listingOutput) true "")
        [] false).2 ∧
    aptAutoclean ∉ execs (updateSystem
        (sampleWorld (answersCatalog "y") "1000" none (runUpgradeFails listingOutput) true "")
        [] false).2 := by
  decide

/-- C4, amended: when the refresh and the list query succeed and at least
one package is upgradable, a failure of the first `sudo apt upgrade -y` is
returned and nothing is started after it; once it has succeeded, whatever
the outcome of the command chosen by the flag and of the two cleanups, the
removal of obsolete packages and the cache cleanup are started after that
command and `updateSystem` returns no error. -/
theorem failure_after_first_upgrade_is_not_fatal (w : World) (prev : List (List String))
    (d : Bool)
    (h1 : (w.run prev aptUpdate).2 = none)
    (h2 : (w.run (prev ++ [aptUpdate]) aptList).2 = none)
    (h3 : 0 < (parseUpgradable (w.run (prev ++ [aptUpdate]) aptList).1).length) :
    (∀ err, (w.run (prev ++ [aptUpdate, aptList]) aptUpgrade).2 = some err →
      (updateSystem w prev d).1 = some err ∧
      execs (updateSystem w prev d).2 = [aptUpdate, aptList, aptUpgrade]) ∧
    ((w.run (prev ++ [aptUpdate, aptList]) aptUpgrade).2 = none →
      (updateSystem w prev d).1 = none ∧
      execs (updateSystem w prev d).2
        = [aptUpdate, aptList, aptUpgrade, if d then aptDistUpgrade else aptUpgrade,
            aptAutoremove, aptAutoclean]) := by
  have hs := updateSystem_some w prev d h1 h2 h3
  constructor
  · intro err hu
    rw [hs.1, hs.2, hu]
    exact ⟨rfl, rfl⟩
  · intro hu
    rw [hs.1, hs.2, hu]
    exact ⟨rfl, rfl⟩

/-- C4, amended, evaluated where the distribution upgrade fails: the two
cleanups are still started and no error is returned. -/
theorem failure_after_first_upgrade_is_not_fatal_witness :
    (runDistUpgradeFails listingOutput [aptUpdate, aptList, aptUpgrade] aptDistUpgrade).2
      = some "exit status 100" ∧
    (updateSystem
        (sampleWorld (answersCatalog "y") "1000" none (runDistUpgradeFails listingOutput) true "")
        [] true).1 = none ∧
    execs (updateSystem
        (sampleWorld (answersCatalog "y") "1000" none (runDistUpgradeFails listingOutput) true "")
        [] true).2
      = [aptUpdate, aptList, aptUpgrade, aptDistUpgrade, aptAutoremove, aptAutoclean] :=
  ⟨by decide,
   ((failure_after_first_upgrade_is_not_fatal _ [] true (by decide) (by decide) (by decide)).2
      (by decide)).1,
   ((failure_after_first_upgrade_is_not_fatal _ [] true (by decide) (by decide) (by decide)).2
      (by decide)).2⟩

/-- C5: if `sudo apt update` fails, `updateSystem` returns that error and it
is the only command started; if it succeeds and `apt list --upgradable`
fails, `updateSystem` returns that error and these two are the only commands
started. -/
theorem refresh_or_list_failure_is_fatal (w : World) (prev : List (List String)) (d : Bool)
    (err : String) :
    ((w.run prev aptUpdate).2 = some err →
      (updateSystem w prev d).1 = some err ∧ execs (updateSystem w prev d).2 = [aptUpdate]) ∧
    ((w.run prev aptUpdate).2 = none → (w.run (prev ++ [aptUpdate]) aptList).2 = some err →
      (updateSystem w prev d).1 = some err ∧
      execs (updateSystem w prev d).2 = [aptUpdate, aptList]) :=
  ⟨updateSystem_refresh_fails w prev d err, updateSystem_list_fails w prev d err⟩

/-- C5 evaluated where the refresh fails and where the list query fails. -/
theorem refresh_or_list_failure_is_fatal_witness :
    ((updateSystem
        (sampleWorld (answersCatalog "y") "1000" none (runFailing aptUpdate) true "") [] true).1
        = some "exit status 100" ∧
      execs (updateSystem
        (sampleWorld (answersCatalog "y") "1000" none (runFailing aptUpdate) true "") [] true).2
        = [["sudo", "apt", "update"]]) ∧
    ((updateSystem
        (sampleWorld (answersCatalog "y") "1000" none (runFailing aptList) true "") [] false).1
        = some "exit status 100" ∧
      execs (updateSystem
        (sampleWorld (answersCatalog "y") "1000" none (runFailing aptList) true "") [] false).2
        = [["sudo", "apt", "update"], ["apt", "list", "--upgradable"]]) :=
  ⟨(refresh_or_list_failure_is_fatal _ [] true "exit status 100").1 (by decide),
   (refresh_or_list_failure_is_fatal _ [] false "exit status 100").2 (by decide) (by decide)⟩

/-- C6: when the refresh and the list query succeed and no package is
upgradable, `updateSystem` returns no error right after printing
`no_packages`, whatever the flag, and the commands started are exactly the
refresh and the list query. -/
theorem nothing_to_update_stops (w : World) (prev : List (List String)) (d : Bool)
    (h1 : (w.run prev aptUpdate).2 = none)
    (h2 : (w.run (prev ++ [aptUpdate]) aptList).2 = none)
    (h3 : (parseUpgradable (w.run (prev ++ [aptUpdate]) aptList).1).length = 0) :
    updateSystem w prev d
      = (none, [.step .packageUpdate, .msg "update_start", .msg "update_packages",
          .exec aptUpdate, .exec aptList, .msg "no_packages"]) ∧
    (updateSystem w prev d).1 = none ∧
    execs (updateSystem w prev d).2 = [aptUpdate, aptList] ∧
    aptUpgrade ∉ execs (updateSystem w prev d).2 ∧
    aptDistUpgrade ∉ execs (updateSystem w prev d).2 ∧
    aptAutoremove ∉ execs (updateSystem w prev d).2 ∧
    aptAutoclean ∉ execs (updateSystem w prev d).2 := by
  rw [updateSystem_none w prev d h1 h2 h3]
  decide

/-- C6 evaluated on an output that holds the header only, with the flag set. -/
theorem nothing_to_update_stops_witness :
    (parseUpgradable "Listing... Done\n".toList).length = 0 ∧
    execs (updateSystem
        (sampleWorld (answersCatalog "y") "1000" none (runAllOk "Listing... Done\n".toList) true "")
        [] true).2 = [["sudo", "apt", "update"], ["apt", "list", "--upgradable"]] :=
  ⟨by decide,
   (nothing_to_update_stops _ [] true (by decide) (by decide) (by decide)).2.2.1⟩

/-! ## C7 and C8: the orchestrator -/

theorem steps_warnIf (r : Str × Option String) (key : String) : steps (warnIf r key) = [] := by
  unfold warnIf
  cases r.2 <;> rfl

theorem steps_warnErr (err : Option String) (key : String) : steps (warnErr err key) = [] := by
  cases err <;> rfl

theorem execs_warnErr (err : Option String) (key : String) : execs (warnErr err key) = [] := by
  cases err <;> rfl

theorem checkRoot_trace (w : World) :
    steps (checkRoot w).2 = [.privilegeCheck] ∧ execs (checkRoot w).2 = [] ∧
    Event.readLine ∉ (checkRoot w).2 := by
  unfold checkRoot
  cases w.currentUser with
  | error e => simp [steps, execs]
  | ok uid => by_cases h : uid = "0" <;> simp [h, steps, execs]

theorem checkInternet_trace (w : World) :
    steps (checkInternet w).2 = [.networkCheck] ∧ execs (checkInternet w).2 = [] ∧
    Event.readLine ∉ (checkInternet w).2 := by
  unfold checkInternet
  cases w.dialError <;> simp [steps, execs]

theorem steps_createSnapshot (w : World) (prev : List (List String)) :
    steps (createSnapshot w prev).2 = [.snapshot] := by
  unfold createSnapshot
  by_cases h : w.lookPath "timeshift" = false
  · simp [h, steps]
  · simp only [h]
    cases (w.run prev (timeshiftCmd (snapshotComment w))).2 <;> simp [steps]

theorem steps_applyAndClean (w : World) (prev : List (List String)) (t : List Event) (d : Bool) :
    steps (applyAndClean w prev t d).2 = steps t := by
  simp [applyAndClean, steps_append, steps_warnIf, steps]

theorem steps_updateSystem (w : World) (prev : List (List String)) (d : Bool) :
    steps (updateSystem w prev d).2 = [.packageUpdate] := by
  unfold updateSystem
  cases (w.run prev aptUpdate).2 with
  | some e => simp [steps]
  | none =>
    rcases hr : w.run (prev ++ [aptUpdate]) aptList with ⟨o, e⟩
    simp only [hr]
    cases e with
    | some e => simp [steps]
    | none =>
      simp only []
      split
      · cases (w.run (prev ++ [aptUpdate] ++ [aptList]) aptUpgrade).2 with
        | some e => simp [steps, steps_append, steps_map_out]
        | none => simp [steps_applyAndClean, steps_warnIf, steps, steps_append, steps_map_out]
      · simp [steps]

theorem steps_updateSnap (w : World) (prev : List (List String)) :
    steps (updateSnap w prev).2 = [.snap] := by
  unfold updateSnap
  by_cases h : w.lookPath "snap" = false
  · simp [h, steps]
  · simp only [h]
    cases (w.run prev snapRefresh).2 <;> simp [steps]

theorem steps_updateFlatpak (w : World) (prev : List (List String)) :
    steps (updateFlatpak w prev).2 = [.flatpak] := by
  unfold updateFlatpak
  by_cases h : w.lookPath "flatpak" = false
  · simp [h, steps]
  · simp only [h]
    cases (w.run prev flatpakUpdate).2 <;> simp [steps]

theorem steps_answerLoop (w : World) (prev : List (List String)) (t : List Event)
    (response : Str) (answers : List Str) :
    steps (answerLoop w prev t response answers).2 = steps t := by
  induction answers with
  | nil => simp [answerLoop, steps_append, steps]
  | cons y ys ih =>
    rw [answerLoop]
    split
    · simp [steps_append, steps]
    · exact ih

theorem steps_checkReboot (w : World) (prev : List (List String)) :
    steps (checkReboot w prev).2 = [.rebootCheck] := by
  unfold checkReboot
  cases w.markerMissing with
  | true => simp [steps]
  | false =>
    simp only [Bool.false_eq_true, if_false]
    cases readString '\n' w.stdin with
    | none => cases w.rebootPkgs <;> simp [steps, steps_append]
    | some r =>
      simp only [steps_answerLoop]
      cases w.rebootPkgs <;> simp [steps, steps_append]

/-- C7: without help or version flag, if the privilege check or the network
check fails, the process exits with code 1, no external command has been
started, standard input has not been read, and no step other than these two
checks has been entered, whatever the configuration. -/
theorem preflight_failure_aborts (w : World) (f : Flags)
    (hh : f.help = false) (hv : f.showVersion = false)
    (hfail : (checkRoot w).1 ≠ none ∨ (checkInternet w).1 ≠ none) :
    (main w f).exit = 1 ∧
    execs (main w f).trace = [] ∧
    Event.readLine ∉ (main w f).trace ∧
    (∀ s ∈ steps (main w f).trace, s = .privilegeCheck ∨ s = .networkCheck) := by
  unfold main
  cases hl : w.langLoaded with
  | false => simp [execs, steps]
  | true =>
    simp only [hh, hv, Bool.true_eq_false, Bool.false_eq_true, if_false]
    have hr := checkRoot_trace w
    have hi := checkInternet_trace w
    rcases hcr : checkRoot w with ⟨er, tr⟩
    rw [hcr] at hr hfail
    cases er with
    | some e =>
      simp only [execs_append, steps_append, hr.1, hr.2.1]
      refine ⟨trivial, by simp [execs], ?_, by simp [steps]⟩
      have := hr.2.2
      simp only at this
      simp [this]
    | none =>
      rcases hci : checkInternet w with ⟨ei, ti⟩
      rw [hci] at hi hfail
      cases ei with
      | some e =>
        simp only [execs_append, steps_append, hr.1, hr.2.1, hi.1, hi.2.1]
        refine ⟨trivial, by simp [execs], ?_, by simp [steps]⟩
        have h1 := hr.2.2
        have h2 := hi.2.2
        simp only at h1 h2
        simp [h1, h2]
      | none => simp at hfail

/-- C7 evaluated for the user with uid 0 and for a failing network probe,
with every optional step requested. -/
theorem preflight_failure_aborts_witness :
    ((main (sampleWorld (answersCatalog "y") "0" none (runAllOk listingOutput) false "y\n")
        ⟨false, false, true, false, false, false, true⟩).exit = 1 ∧
      execs (main (sampleWorld (answersCatalog "y") "0" none (runAllOk listingOutput) false "y\n")
        ⟨false, false, true, false, false, false, true⟩).trace = []) ∧
    ((main (sampleWorld (answersCatalog "y") "1000" (some "i/o timeout")
          (runAllOk listingOutput) false "y\n")
        ⟨false, false, true, false, false, false, true⟩).exit = 1 ∧
      execs (main (sampleWorld (answersCatalog "y") "1000" (some "i/o timeout")
          (runAllOk listingOutput) false "y\n")
        ⟨false, false, true, false, false, false, true⟩).trace = []) :=
  ⟨⟨(preflight_failure_aborts _ _ rfl rfl (Or.inl (by decide))).1,
    (preflight_failure_aborts _ _ rfl rfl (Or.inl (by decide))).2.1⟩,
   ⟨(preflight_failure_aborts _ _ rfl rfl (Or.inr (by decide))).1,
    (preflight_failure_aborts _ _ rfl rfl (Or.inr (by decide))).2.1⟩⟩

theorem steps_preUpdateTrace (w : World) (f : Flags) :
    steps (preUpdateTrace w f)
      = [.privilegeCheck, .networkCheck] ++
        (if (configOf f).CreateSnapshot then [.snapshot] else []) := by
  unfold preUpdateTrace
  have hr := (checkRoot_trace w).1
  have hi := (checkInternet_trace w).1
  cases (configOf f).CreateSnapshot <;>
    simp [steps_append, steps, hr, hi, steps_createSnapshot, steps_warnErr]

theorem steps_postUpdateTrace (w : World) (f : Flags) (t : List Event) :
    steps (postUpdateTrace w f t)
      = steps t ++ (if (configOf f).UpdateSnap then [.snap] else []) ++
        (if (configOf f).UpdateFlatpak then [.flatpak] else []) ++
        (if (configOf f).CheckRebootNeeded then [.rebootCheck] else []) := by
  unfold postUpdateTrace
  cases (configOf f).UpdateSnap <;> cases (configOf f).UpdateFlatpak <;>
    cases (configOf f).CheckRebootNeeded <;>
    simp [steps_append, steps, steps_updateSnap, steps_updateFlatpak, steps_checkReboot,
      steps_warnErr]

theorem postUpdateTrace_banner (w : World) (f : Flags) (t : List Event) :
    ∃ pre, postUpdateTrace w f t = pre ++ [.msg "app_finished", .msg "end_time"] :=
  ⟨_, rfl⟩

theorem main_success (w : World) (f : Flags)
    (hl : w.langLoaded = true) (hh : f.help = false) (hv : f.showVersion = false)
    (hr : (checkRoot w).1 = none) (hi : (checkInternet w).1 = none)
    (hu : (updateSystem w (execs (preUpdateTrace w f)) f.distUpgrade).1 = none) :
    main w f = ⟨0, postUpdateTrace w f (preUpdateTrace w f ++
      (updateSystem w (execs (preUpdateTrace w f)) f.distUpgrade).2)⟩ := by
  unfold main
  simp only [hl, hh, hv, Bool.true_eq_false, Bool.false_eq_true, if_false]
  rcases hcr : checkRoot w with ⟨er, tr⟩
  rw [hcr] at hr
  simp only at hr
  subst hr
  rcases hci : checkInternet w with ⟨ei, ti⟩
  rw [hci] at hi
  simp only at hi
  subst hi
  rcases hus : updateSystem w (execs (preUpdateTrace w f)) f.distUpgrade with ⟨eu, tu⟩
  rw [hus] at hu
  simp only at hu
  subst hu
  rfl

theorem execs_checkRoot (w : World) : execs (checkRoot w).2 = [] :=
  (checkRoot_trace w).2.1

theorem execs_checkInternet (w : World) : execs (checkInternet w).2 = [] :=
  (checkInternet_trace w).2.1

theorem execs_preUpdateTrace (w : World) (f : Flags) :
    execs (preUpdateTrace w f) = cmdsBeforeUpdate w f := by
  unfold preUpdateTrace cmdsBeforeUpdate
  cases (configOf f).CreateSnapshot <;>
    simp [execs_append, execs, execs_checkRoot, execs_checkInternet, execs_warnErr]

theorem preUpdateTrace_eq (w : World) (f : Flags) :
    preUpdateTrace w f
      = [.msg "app_title", .msg "start_time", .out []] ++ (checkRoot w).2 ++ (checkInternet w).2 ++
        optionalStep (configOf f).CreateSnapshot (createSnapshot w []) "error_snapshot" true := by
  unfold preUpdateTrace optionalStep
  cases (configOf f).CreateSnapshot <;>
    simp [execs_append, execs, execs_checkRoot, execs_checkInternet]

theorem postUpdateTrace_eq (w : World) (f : Flags) (t : List Event)
    (ht : execs t = cmdsBeforeSnap w f) :
    postUpdateTrace w f t
      = t ++ [.out []] ++
        optionalStep (configOf f).UpdateSnap (updateSnap w (cmdsBeforeSnap w f)) "error_snap" true ++
        optionalStep (configOf f).UpdateFlatpak (updateFlatpak w (cmdsBeforeFlatpak w f))
          "error_flatpak" true ++
        optionalStep (configOf f).CheckRebootNeeded (checkReboot w (cmdsBeforeReboot w f))
          "error_reboot" false ++
        [.msg "app_finished", .msg "end_time"] := by
  unfold postUpdateTrace optionalStep cmdsBeforeReboot cmdsBeforeFlatpak
  cases (configOf f).UpdateSnap <;> cases (configOf f).UpdateFlatpak <;>
    cases (configOf f).CheckRebootNeeded <;>
    simp [execs_append, execs, execs_warnErr, ht]

theorem execs_optionalStep (enabled : Bool) (r : Option String × List Event) (errKey : String)
    (blank : Bool) :
    execs (optionalStep enabled r errKey blank) = if enabled then execs r.2 else [] := by
  unfold optionalStep
  cases enabled <;> cases blank <;> simp [execs_append, execs_warnErr, execs]

theorem steps_optionalStep (enabled : Bool) (r : Option String × List Event) (errKey : String)
    (blank : Bool) :
    steps (optionalStep enabled r errKey blank) = if enabled then steps r.2 else [] := by
  unfold optionalStep
  cases enabled <;> cases blank <;> simp [steps_append, steps_warnErr, steps]

theorem answerLoop_no_match (w : World) (prev : List (List String)) (t : List Event)
    (response : Str) (answers : List Str) (h : ∀ y ∈ answers, response ≠ trimSpace y) :
    answerLoop w prev t response answers = (none, t ++ [.msg "reboot_later"]) := by
  induction answers with
  | nil => rfl
  | cons y ys ih =>
    rw [answerLoop, if_neg (h y (List.mem_cons_self y ys))]
    exact ih (fun z hz => h z (List.mem_cons_of_mem y hz))

theorem execs_promptTrace (w : World) : execs (promptTrace w) = [] := by
  unfold promptTrace
  cases w.rebootPkgs <;> rfl

theorem checkReboot_answer (w : World) (prev : List (List String)) (line : Str)
    (hm : w.markerMissing = false) (hread : readString '\n' w.stdin = some line) :
    checkReboot w prev = answerLoop w prev (promptTrace w) (normalize w line) (yesAnswers w) := by
  unfold checkReboot
  simp only [hm, hread, Bool.false_eq_true, if_false]
  rfl

theorem execs_createSnapshot_mem (w : World) (prev : List (List String)) :
    ∀ c ∈ execs (createSnapshot w prev).2, c = timeshiftCmd (snapshotComment w) := by
  unfold createSnapshot
  by_cases h : w.lookPath "timeshift" = false
  · simp [h, execs]
  · simp only [h]
    cases (w.run prev (timeshiftCmd (snapshotComment w))).2 <;> simp [execs]

theorem execs_updateSystem_mem (w : World) (prev : List (List String)) (d : Bool) :
    ∀ c ∈ execs (updateSystem w prev d).2,
      c ∈ [aptUpdate, aptList, aptUpgrade, aptDistUpgrade, aptAutoremove, aptAutoclean] := by
  cases h1 : (w.run prev aptUpdate).2 with
  | some e =>
    rw [(updateSystem_refresh_fails w prev d e h1).2]
    decide
  | none =>
    cases h2 : (w.run (prev ++ [aptUpdate]) aptList).2 with
    | some e =>
      rw [(updateSystem_list_fails w prev d e h1 h2).2]
      decide
    | none =>
      by_cases h3 : (parseUpgradable (w.run (prev ++ [aptUpdate]) aptList).1).length = 0
      · rw [updateSystem_none w prev d h1 h2 h3]
        decide
      · rw [(updateSystem_some w prev d h1 h2 (Nat.pos_of_ne_zero h3)).2]
        cases (w.run (prev ++ [aptUpdate, aptList]) aptUpgrade).2 <;> cases d <;> dsimp only <;> decide

theorem execs_updateSnap_mem (w : World) (prev : List (List String)) :
    ∀ c ∈ execs (updateSnap w prev).2, c = snapRefresh := by
  unfold updateSnap
  by_cases h : w.lookPath "snap" = false
  · simp [h, execs]
  · simp only [h]
    cases (w.run prev snapRefresh).2 <;> simp [execs]

theorem execs_updateFlatpak_mem (w : World) (prev : List (List String)) :
    ∀ c ∈ execs (updateFlatpak w prev).2, c = flatpakUpdate := by
  unfold updateFlatpak
  by_cases h : w.lookPath "flatpak" = false
  · simp [h, execs]
  · simp only [h]
    cases (w.run prev flatpakUpdate).2 <;> simp [execs]

theorem execs_answerLoop_mem (w : World) (prev : List (List String)) (t : List Event)
    (response : Str) (answers : List Str) (ht : execs t = []) :
    ∀ c ∈ execs (answerLoop w prev t response answers).2, c = rebootCmd := by
  induction answers with
  | nil => simp [answerLoop, execs_append, ht, execs]
  | cons y ys ih =>
    rw [answerLoop]
    split
    · simp [execs_append, ht, execs]
    · exact ih

theorem execs_checkReboot_mem (w : World) (prev : List (List String)) :
    ∀ c ∈ execs (checkReboot w prev).2, c = rebootCmd := by
  cases hm : w.markerMissing with
  | true =>
    unfold checkReboot
    simp [hm, execs]
  | false =>
    cases hread : readString '\n' w.stdin with
    | none =>
      unfold checkReboot
      simp only [hm, hread, Bool.false_eq_true, if_false]
      have := execs_promptTrace w
      unfold promptTrace at this
      rw [this]
      simp
    | some line =>
      rw [checkReboot_answer w prev line hm hread]
      exact execs_answerLoop_mem w prev _ _ _ (execs_promptTrace w)

theorem cmdsBeforeUpdate_mem (w : World) (f : Flags) :
    ∀ c ∈ cmdsBeforeUpdate w f, c = timeshiftCmd (snapshotComment w) := by
  unfold cmdsBeforeUpdate
  cases (configOf f).CreateSnapshot
  · simp
  · exact execs_createSnapshot_mem w []

theorem cmdsBeforeSnap_mem (w : World) (f : Flags) :
    ∀ c ∈ cmdsBeforeSnap w f, c = timeshiftCmd (snapshotComment w) ∨
      c ∈ [aptUpdate, aptList, aptUpgrade, aptDistUpgrade, aptAutoremove, aptAutoclean] := by
  intro c hc
  unfold cmdsBeforeSnap at hc
  rcases List.mem_append.mp hc with h | h
  · exact Or.inl (cmdsBeforeUpdate_mem w f c h)
  · exact Or.inr (execs_updateSystem_mem w _ _ c h)

theorem timeshiftCmd_ne (comment : Str) :
    snapRefresh ≠ timeshiftCmd comment ∧ flatpakUpdate ≠ timeshiftCmd comment := by
  constructor <;> intro h <;> simp [timeshiftCmd, snapRefresh, flatpakUpdate] at h

theorem cmdsBeforeReboot_mem (w : World) (f : Flags) :
    ∀ c ∈ cmdsBeforeReboot w f ++
        (if (configOf f).CheckRebootNeeded then execs (checkReboot w (cmdsBeforeReboot w f)).2
         else []),
      c = timeshiftCmd (snapshotComment w) ∨
      c ∈ [aptUpdate, aptList, aptUpgrade, aptDistUpgrade, aptAutoremove, aptAutoclean] ∨
      ((configOf f).UpdateSnap = true ∧ c = snapRefresh) ∨
      ((configOf f).UpdateFlatpak = true ∧ c = flatpakUpdate) ∨
      ((configOf f).CheckRebootNeeded = true ∧ c = rebootCmd) := by
  intro c hc
  rcases List.mem_append.mp hc with h | h
  · unfold cmdsBeforeReboot at h
    rcases List.mem_append.mp h with h | h
    · unfold cmdsBeforeFlatpak at h
      rcases List.mem_append.mp h with h | h
      · rcases cmdsBeforeSnap_mem w f c h with h | h
        · exact Or.inl h
        · exact Or.inr (Or.inl h)
      · cases hs : (configOf f).UpdateSnap with
        | false => simp [hs] at h
        | true =>
          rw [hs] at h
          exact Or.inr (Or.inr (Or.inl ⟨rfl, execs_updateSnap_mem w _ c h⟩))
    · cases hs : (configOf f).UpdateFlatpak with
      | false => simp [hs] at h
      | true =>
        rw [hs] at h
        exact Or.inr (Or.inr (Or.inr (Or.inl ⟨rfl, execs_updateFlatpak_mem w _ c h⟩)))
  · cases hs : (configOf f).CheckRebootNeeded with
    | false => simp [hs] at h
    | true =>
      rw [hs] at h
      exact Or.inr (Or.inr (Or.inr (Or.inr ⟨rfl, execs_checkReboot_mem w _ c h⟩)))

theorem main_trace_eq (w : World) (f : Flags)
    (hl : w.langLoaded = true) (hh : f.help = false) (hv : f.showVersion = false)
    (hr : (checkRoot w).1 = none) (hi : (checkInternet w).1 = none)
    (hu : (updateSystem w (cmdsBeforeUpdate w f) f.distUpgrade).1 = none) :
    main w f = ⟨0,
      [.msg "app_title", .msg "start_time", .out []] ++ (checkRoot w).2 ++ (checkInternet w).2 ++
        optionalStep (configOf f).CreateSnapshot (createSnapshot w []) "error_snapshot" true ++
        (updateSystem w (cmdsBeforeUpdate w f) f.distUpgrade).2 ++ [.out []] ++
        optionalStep (configOf f).UpdateSnap (updateSnap w (cmdsBeforeSnap w f)) "error_snap" true ++
        optionalStep (configOf f).UpdateFlatpak (updateFlatpak w (cmdsBeforeFlatpak w f))
          "error_flatpak" true ++
        optionalStep (configOf f).CheckRebootNeeded (checkReboot w (cmdsBeforeReboot w f))
          "error_reboot" false ++
        [.msg "app_finished", .msg "end_time"]⟩ := by
  have hu2 : (updateSystem w (execs (preUpdateTrace w f)) f.distUpgrade).1 = none := by
    rw [execs_preUpdateTrace]
    exact hu
  rw [main_success w f hl hh hv hr hi hu2]
  have ht : execs (preUpdateTrace w f ++
      (updateSystem w (execs (preUpdateTrace w f)) f.distUpgrade).2) = cmdsBeforeSnap w f := by
    rw [execs_append, execs_preUpdateTrace]
    rfl
  rw [postUpdateTrace_eq w f _ ht, execs_preUpdateTrace, preUpdateTrace_eq]

/-- C8: when the language is loaded, no help or version flag is given and the
privilege check, the network check and the package update succeed, then
whatever the outcome of the snapshot, snap, flatpak and reboot steps, the
process exits with code 0 and everything it did is, in this order: the
header, `checkRoot`, `checkInternet`, `createSnapshot` iff `CreateSnapshot`,
`updateSystem`, `updateSnap` iff `UpdateSnap`, `updateFlatpak` iff
`UpdateFlatpak`, `checkReboot` iff `CheckRebootNeeded` (each optional step
followed by a warning when it failed) and the completion banner.  So the
commands started are those of these functions, in this order, and the steps
entered are these.  With `--no-snap` no `sudo snap refresh` is started and
the snap step is not entered, with `--no-flatpak` no `flatpak update -y` is
started and the flatpak step is not entered, and without `--no-reboot` the
events of `checkReboot` are part of the run. -/
theorem optional_steps_never_abort (w : World) (f : Flags)
    (hl : w.langLoaded = true) (hh : f.help = false) (hv : f.showVersion = false)
    (hr : (checkRoot w).1 = none) (hi : (checkInternet w).1 = none)
    (hu : (updateSystem w (cmdsBeforeUpdate w f) f.distUpgrade).1 = none) :
    (main w f).exit = 0 ∧
    (main w f).trace
      = [.msg "app_title", .msg "start_time", .out []] ++ (checkRoot w).2 ++ (checkInternet w).2 ++
        optionalStep (configOf f).CreateSnapshot (createSnapshot w []) "error_snapshot" true ++
        (updateSystem w (cmdsBeforeUpdate w f) f.distUpgrade).2 ++ [.out []] ++
        optionalStep (configOf f).UpdateSnap (updateSnap w (cmdsBeforeSnap w f)) "error_snap" true ++
        optionalStep (configOf f).UpdateFlatpak (updateFlatpak w (cmdsBeforeFlatpak w f))
          "error_flatpak" true ++
        optionalStep (configOf f).CheckRebootNeeded (checkReboot w (cmdsBeforeReboot w f))
          "error_reboot" false ++
        [.msg "app_finished", .msg "end_time"] ∧
    execs (main w f).trace
      = (if (configOf f).CreateSnapshot then execs (createSnapshot w []).2 else []) ++
        execs (updateSystem w (cmdsBeforeUpdate w f) f.distUpgrade).2 ++
        (if (configOf f).UpdateSnap then execs (updateSnap w (cmdsBeforeSnap w f)).2 else []) ++
        (if (configOf f).UpdateFlatpak then execs (updateFlatpak w (cmdsBeforeFlatpak w f)).2
         else []) ++
        (if (configOf f).CheckRebootNeeded then execs (checkReboot w (cmdsBeforeReboot w f)).2
         else []) ∧
    steps (main w f).trace
      = [.privilegeCheck, .networkCheck] ++
        (if (configOf f).CreateSnapshot then [.snapshot] else []) ++ [.packageUpdate] ++
        (if (configOf f).UpdateSnap then [.snap] else []) ++
        (if (configOf f).UpdateFlatpak then [.flatpak] else []) ++
        (if (configOf f).CheckRebootNeeded then [.rebootCheck] else []) ∧
    (∃ pre, (main w f).trace = pre ++ [.msg "app_finished", .msg "end_time"]) ∧
    (f.noSnap = true →
      snapRefresh ∉ execs (main w f).trace ∧ Step.snap ∉ steps (main w f).trace) ∧
    (f.noFlatpak = true →
      flatpakUpdate ∉ execs (main w f).trace ∧ Step.flatpak ∉ steps (main w f).trace) ∧
    (f.noReboot = false →
      Step.rebootCheck ∈ steps (main w f).trace ∧
      (checkReboot w (cmdsBeforeReboot w f)).2 <:+: (main w f).trace) := by
  have hmain := main_trace_eq w f hl hh hv hr hi hu
  have hexecs : execs (main w f).trace
      = cmdsBeforeReboot w f ++
        (if (configOf f).CheckRebootNeeded then execs (checkReboot w (cmdsBeforeReboot w f)).2
         else []) := by
    have h1 : execs [Event.msg "app_title", .msg "start_time", .out []] = [] := rfl
    have h2 : execs [Event.out []] = [] := rfl
    have h3 : execs [Event.msg "app_finished", .msg "end_time"] = [] := rfl
    rw [hmain]
    simp only [execs_append, execs_optionalStep, execs_checkRoot, execs_checkInternet, h1, h2, h3,
      cmdsBeforeReboot, cmdsBeforeFlatpak, cmdsBeforeSnap, cmdsBeforeUpdate,
      List.append_nil, List.nil_append, List.append_assoc]
  have hsteps : steps (main w f).trace
      = [.privilegeCheck, .networkCheck] ++
        (if (configOf f).CreateSnapshot then [.snapshot] else []) ++ [.packageUpdate] ++
        (if (configOf f).UpdateSnap then [.snap] else []) ++
        (if (configOf f).UpdateFlatpak then [.flatpak] else []) ++
        (if (configOf f).CheckRebootNeeded then [.rebootCheck] else []) := by
    have h1 : steps [Event.msg "app_title", .msg "start_time", .out []] = [] := rfl
    have h2 : steps [Event.out []] = [] := rfl
    have h3 : steps [Event.msg "app_finished", .msg "end_time"] = [] := rfl
    rw [hmain]
    simp only [steps_append, steps_optionalStep, (checkRoot_trace w).1, (checkInternet_trace w).1,
      h1, h2, h3, steps_createSnapshot, steps_updateSystem, steps_updateSnap, steps_updateFlatpak,
      steps_checkReboot]
    simp only [List.append_nil, List.nil_append, List.append_assoc, List.cons_append]
  refine ⟨?_, ?_, ?_, hsteps, ?_, ?_, ?_, ?_⟩
  · rw [hmain]
  · rw [hmain]
  · rw [hexecs]
    simp only [cmdsBeforeReboot, cmdsBeforeFlatpak, cmdsBeforeSnap, cmdsBeforeUpdate]
  · rw [hmain]
    exact ⟨_, rfl⟩
  · intro hn
    have hc : (configOf f).UpdateSnap = false := by simp [configOf, hn]
    constructor
    · intro hin
      rw [hexecs] at hin
      rcases cmdsBeforeReboot_mem w f _ hin with h | h | h | h | h
      · exact (timeshiftCmd_ne _).1 h
      · revert h
        decide
      · rw [hc] at h
        exact Bool.noConfusion h.1
      · exact absurd h.2 (by decide)
      · exact absurd h.2 (by decide)
    · rw [hsteps, hc]
      cases (configOf f).CreateSnapshot <;> cases (configOf f).UpdateFlatpak <;>
        cases (configOf f).CheckRebootNeeded <;> decide
  · intro hn
    have hc : (configOf f).UpdateFlatpak = false := by simp [configOf, hn]
    constructor
    · intro hin
      rw [hexecs] at hin
      rcases cmdsBeforeReboot_mem w f _ hin with h | h | h | h | h
      · exact (timeshiftCmd_ne _).2 h
      · revert h
        decide
      · exact absurd h.2 (by decide)
      · rw [hc] at h
        exact Bool.noConfusion h.1
      · exact absurd h.2 (by decide)
    · rw [hsteps, hc]
      cases (configOf f).CreateSnapshot <;> cases (configOf f).UpdateSnap <;>
        cases (configOf f).CheckRebootNeeded <;> decide
  · intro hn
    have hc : (configOf f).CheckRebootNeeded = true := by simp [configOf, hn]
    constructor
    · rw [hsteps, hc]
      simp
    · rw [hmain, hc]
      refine ⟨[.msg "app_title", .msg "start_time", .out []] ++ (checkRoot w).2 ++
          (checkInternet w).2 ++
          optionalStep (configOf f).CreateSnapshot (createSnapshot w []) "error_snapshot" true ++
          (updateSystem w (cmdsBeforeUpdate w f) f.distUpgrade).2 ++ [.out []] ++
          optionalStep (configOf f).UpdateSnap (updateSnap w (cmdsBeforeSnap w f))
            "error_snap" true ++
          optionalStep (configOf f).UpdateFlatpak (updateFlatpak w (cmdsBeforeFlatpak w f))
            "error_flatpak" true,
        warnErr (checkReboot w (cmdsBeforeReboot w f)).1 "error_reboot" ++
          [.msg "app_finished", .msg "end_time"], ?_⟩
      simp [optionalStep]

/-- C8 evaluated twice.  First with every step requested, where the
snapshot, snap and flatpak commands all fail and the read of the operator's
answer fails: every step is still entered and every command still started,
in order, and the exit code is 0.  Then with `--no-snap --no-flatpak`, where
the operator answers `y`: neither `sudo snap refresh` nor `flatpak update -y`
is started and the reboot check starts `sudo reboot`. -/
theorem optional_steps_never_abort_witness :
    ((createSnapshot (sampleWorld (answersCatalog "y") "1000" none (runOnlyApt listingOutput)
        false "") []).1 = some "exit status 1" ∧
      (main (sampleWorld (answersCatalog "y") "1000" none (runOnlyApt listingOutput) false "")
        ⟨false, false, true, false, false, false, false⟩).exit = 0 ∧
      execs (main (sampleWorld (answersCatalog "y") "1000" none (runOnlyApt listingOutput)
          false "")
        ⟨false, false, true, false, false, false, false⟩).trace
        = [["sudo", "timeshift", "--create", "--comments",
            "System update snapshot - 2024-05-17 09:30", "--scripted"],
           ["sudo", "apt", "update"], ["apt", "list", "--upgradable"],
           ["sudo", "apt", "upgrade", "-y"], ["sudo", "apt", "upgrade", "-y"],
           ["sudo", "apt", "autoremove", "-y"], ["sudo", "apt", "autoclean"],
           ["sudo", "snap", "refresh"], ["flatpak", "update", "-y"]] ∧
      steps (main (sampleWorld (answersCatalog "y") "1000" none (runOnlyApt listingOutput)
          false "")
        ⟨false, false, true, false, false, false, false⟩).trace
        = [.privilegeCheck, .networkCheck, .snapshot, .packageUpdate, .snap, .flatpak,
            .rebootCheck]) ∧
    ((main (sampleWorld (answersCatalog "y") "1000" none (runAllOk listingOutput) false "y\n")
        ⟨false, false, false, true, true, false, false⟩).exit = 0 ∧
      execs (main (sampleWorld (answersCatalog "y") "1000" none (runAllOk listingOutput)
          false "y\n")
        ⟨false, false, false, true, true, false, false⟩).trace
        = [["sudo", "apt", "update"], ["apt", "list", "--upgradable"],
           ["sudo", "apt", "upgrade", "-y"], ["sudo", "apt", "upgrade", "-y"],
           ["sudo", "apt", "autoremove", "-y"], ["sudo", "apt", "autoclean"],
           ["sudo", "reboot"]] ∧
      snapRefresh ∉ execs (main (sampleWorld (answersCatalog "y") "1000" none
          (runAllOk listingOutput) false "y\n")
        ⟨false, false, false, true, true, false, false⟩).trace ∧
      flatpakUpdate ∉ execs (main (sampleWorld (answersCatalog "y") "1000" none
          (runAllOk listingOutput) false "y\n")
        ⟨false, false, false, true, true, false, false⟩).trace) :=
  ⟨⟨by decide,
    (optional_steps_never_abort _ _ rfl rfl rfl (by decide) (by decide) (by decide)).1,
    (optional_steps_never_abort _ _ rfl rfl rfl (by decide) (by decide)
      (by decide)).2.2.1.trans (by decide),
    (optional_steps_never_abort _ _ rfl rfl rfl (by decide) (by decide)
      (by decide)).2.2.2.1⟩,
   ⟨(optional_steps_never_abort _ _ rfl rfl rfl (by decide) (by decide) (by decide)).1,
    (optional_steps_never_abort _ _ rfl rfl rfl (by decide) (by decide)
      (by decide)).2.2.1.trans (by decide),
    ((optional_steps_never_abort _ _ rfl rfl rfl (by decide) (by decide)
      (by decide)).2.2.2.2.2.1 rfl).1,
    ((optional_steps_never_abort _ _ rfl rfl rfl (by decide) (by decide)
      (by decide)).2.2.2.2.2.2.1 rfl).1⟩⟩

/-! ## C9 and C10: the reboot check -/

/-- C10: when the marker file is absent, `checkReboot` returns no error
without reading standard input or starting a command; when it is present
and a line is read whose normalized form equals none of the trimmed accepted
answers, no command is started and `checkReboot` returns no error; and when
the read fails no command is started either. -/
theorem no_reboot_without_affirmative_answer (w : World) (prev : List (List String)) :
    (w.markerMissing = true →
      (checkReboot w prev).1 = none ∧ execs (checkReboot w prev).2 = [] ∧
      Event.readLine ∉ (checkReboot w prev).2) ∧
    (∀ line, w.markerMissing = false → readString '\n' w.stdin = some line →
      (∀ y ∈ yesAnswers w, normalize w line ≠ trimSpace y) →
      (checkReboot w prev).1 = none ∧ execs (checkReboot w prev).2 = []) ∧
    (w.markerMissing = false → readString '\n' w.stdin = none →
      execs (checkReboot w prev).2 = []) := by
  refine ⟨?_, ?_, ?_⟩
  · intro hm
    unfold checkReboot
    simp [hm, execs]
  · intro line hm hread hno
    rw [checkReboot_answer w prev line hm hread, answerLoop_no_match w prev _ _ _ hno]
    refine ⟨rfl, ?_⟩
    rw [execs_append, execs_promptTrace]
    rfl
  · intro hm hread
    unfold checkReboot
    simp only [hm, hread, Bool.false_eq_true, if_false]
    exact execs_promptTrace w

/-- C10 evaluated with the marker absent, and with the marker present and
the operator entering `No` against the accepted answers `y,yes`. -/
theorem no_reboot_without_affirmative_answer_witness :
    ((checkReboot (sampleWorld (answersCatalog "y,yes") "1000" none (runAllOk []) true "y\n")
        []).1 = none ∧
      execs (checkReboot (sampleWorld (answersCatalog "y,yes") "1000" none (runAllOk []) true "y\n")
        []).2 = [] ∧
      Event.readLine ∉
        (checkReboot (sampleWorld (answersCatalog "y,yes") "1000" none (runAllOk []) true "y\n")
          []).2) ∧
    ((checkReboot (sampleWorld (answersCatalog "y,yes") "1000" none (runAllOk []) false "No\n")
        []).1 = none ∧
      execs (checkReboot (sampleWorld (answersCatalog "y,yes") "1000" none (runAllOk []) false "No\n")
        []).2 = []) :=
  ⟨(no_reboot_without_affirmative_answer _ []).1 rfl,
   (no_reboot_without_affirmative_answer _ []).2.1 "No\n".toList rfl (by decide) (by decide)⟩

/-! ## C11 and C12: absent tools and the comment that reaches the tool -/

/-- C11: each of `createSnapshot`, `updateSnap` and `updateFlatpak`, when its
tool (`timeshift`, `snap`, `flatpak`) is not found on the search path,
returns no error and starts no external command: all it does is print the
notice that the tool is missing. -/
theorem missing_tool_is_skipped (w : World) (prev : List (List String)) :
    (w.lookPath "timeshift" = false →
      (createSnapshot w prev).1 = none ∧ execs (createSnapshot w prev).2 = [] ∧
      (createSnapshot w prev).2 = [.step .snapshot, .msg "timeshift_missing"]) ∧
    (w.lookPath "snap" = false →
      (updateSnap w prev).1 = none ∧ execs (updateSnap w prev).2 = [] ∧
      (updateSnap w prev).2 = [.step .snap, .msg "snap_missing"]) ∧
    (w.lookPath "flatpak" = false →
      (updateFlatpak w prev).1 = none ∧ execs (updateFlatpak w prev).2 = [] ∧
      (updateFlatpak w prev).2 = [.step .flatpak, .msg "flatpak_missing"]) := by
  refine ⟨?_, ?_, ?_⟩
  · intro h
    unfold createSnapshot
    simp [h, execs]
  · intro h
    unfold updateSnap
    simp [h, execs]
  · intro h
    unfold updateFlatpak
    simp [h, execs]

/-- C11 evaluated with an empty search path, where every command would fail
if it were started. -/
theorem missing_tool_is_skipped_witness :
    ((createSnapshot (toolsWorld (fun _ => false) (answersCatalog "y")) []).1 = none ∧
      execs (createSnapshot (toolsWorld (fun _ => false) (answersCatalog "y")) []).2 = []) ∧
    ((updateSnap (toolsWorld (fun _ => false) (answersCatalog "y")) []).1 = none ∧
      execs (updateSnap (toolsWorld (fun _ => false) (answersCatalog "y")) []).2 = []) ∧
    ((updateFlatpak (toolsWorld (fun _ => false) (answersCatalog "y")) []).1 = none ∧
      execs (updateFlatpak (toolsWorld (fun _ => false) (answersCatalog "y")) []).2 = []) :=
  ⟨⟨((missing_tool_is_skipped _ []).1 rfl).1, ((missing_tool_is_skipped _ []).1 rfl).2.1⟩,
   ⟨((missing_tool_is_skipped _ []).2.1 rfl).1, ((missing_tool_is_skipped _ []).2.1 rfl).2.1⟩,
   ⟨((missing_tool_is_skipped _ []).2.2 rfl).1, ((missing_tool_is_skipped _ []).2.2 rfl).2.1⟩⟩

/-- C12: whatever the catalogue holds for `before_update` (a missing key
included) and whatever the formatter makes of it, if the timestamp of the
fallback is made only of digits, `-`, `:` and space, then the comment of line
165 holds no character of the denylist, and it is that comment which the one
command started by `createSnapshot` carries when the tool is installed. -/
theorem final_comment_is_clean (w : World) (prev : List (List String))
    (hstamp : ∀ c ∈ w.fallbackStamp, stampChar c = true) :
    containsAny (snapshotComment w) denylist = false ∧
    (∀ c ∈ snapshotComment w, c ∉ denylist) ∧
    (w.lookPath "timeshift" = true →
      execs (createSnapshot w prev).2 = [timeshiftCmd (snapshotComment w)]) := by
  have hclean : containsAny (snapshotComment w) denylist = false := by
    by_cases hc : containsAny (candidateComment w) denylist = true
    · have he : snapshotComment w = fallbackComment w := by simp [snapshotComment, hc]
      rw [he]
      exact fallback_clean w hstamp
    · have he : snapshotComment w = candidateComment w := by simp [snapshotComment, hc]
      rw [he]
      simpa using hc
  refine ⟨hclean, ?_, ?_⟩
  · intro c hc hd
    have hany : containsAny (snapshotComment w) denylist = true := by
      unfold containsAny
      rw [List.any_eq_true]
      exact ⟨c, hc, List.elem_iff.mpr hd⟩
    rw [hclean] at hany
    exact Bool.noConfusion hany
  · intro h
    unfold createSnapshot
    simp only [h]
    cases (w.run prev (timeshiftCmd (snapshotComment w))).2 <;> simp [execs]

/-- C12 evaluated with the key `before_update` missing from the catalogue:
the candidate `[MISSING: before_update]` holds brackets, and the comment
that is passed on is the fallback. -/
theorem final_comment_is_clean_witness :
    candidateComment (toolsWorld (fun _ => true) (answersCatalog "y"))
      = "[MISSING: before_update]".toList ∧
    (∀ c ∈ (toolsWorld (fun _ => true) (answersCatalog "y")).fallbackStamp, stampChar c = true) ∧
    containsAny (snapshotComment (toolsWorld (fun _ => true) (answersCatalog "y"))) denylist
      = false ∧
    execs (createSnapshot (toolsWorld (fun _ => true) (answersCatalog "y")) []).2
      = [["sudo", "timeshift", "--create", "--comments",
          "System update snapshot - 2024-05-17 09:30", "--scripted"]] :=
  ⟨by decide, by decide,
   (final_comment_is_clean _ [] (by decide)).1,
   ((final_comment_is_clean _ [] (by decide)).2.2 rfl).trans (by decide)⟩

end Uubu
